import Mathlib

/-!
Shallow embedding of `specsim` (files `specsim/atmosphere.py` and
`specsim/telescope.py`), modelling the atmosphere radiative-transfer model:
the `Atmosphere` class (construction, `set_condition`, `set_airmass`,
`propagate`) and the `krisciunas_schaefer` scattered-moonlight function.

Modelling conventions:
* Python floats are modelled as real numbers `ℝ`; numpy per-wavelength
  arrays as `List ℝ`.
* The moon-phase argument of `krisciunas_schaefer` is modelled as a list of
  rationals `List ℚ` (every Python float is a binary rational, so the
  comparisons against 0 and 1 performed by the validation check are captured
  exactly); the phase is coerced to `ℝ` where it enters the analytic formula.
* A Python `dict` of condition name to spectrum is an association list
  `List (String × List ℝ)`; `dict.keys()` is the list of first components.
* Fallible Python code (raising) is modelled with `Except SimError`.
* The bare name `extinct_emission` read inside `Atmosphere.propagate`
  resolves, in Python, through the enclosing module's global scope.  The
  module `specsim/atmosphere.py` defines no global of that name, so the
  lookup is modelled by an explicit ambient environment
  `globalScope : Option Bool`, whose actual value for this module is
  `moduleGlobals = none` (a `none` lookup is Python's `NameError`).
-/

/-- Errors raised by the modelled code.  `nameError` is Python's `NameError`
(an undefined bare name); `invalidCondition` is the `ValueError` raised by
`Atmosphere.set_condition`, carrying the offending name and the tuple of
valid condition names that the formatted message enumerates;
`invalidMoonPhase` is the `ValueError` raised by `krisciunas_schaefer`,
carrying the moon-phase array that the formatted message displays;
`broadcastError` is numpy's shape-mismatch `ValueError` for elementwise
arithmetic on arrays of different lengths. -/
inductive SimError where
  | nameError (name : String)
  | invalidCondition (name : String) (valid : List String)
  | invalidMoonPhase (phases : List ℚ)
  | broadcastError
  deriving Repr, DecidableEq

noncomputable section

/-- Elementwise product of two numpy arrays of the same length; arrays of
different lengths raise a broadcast error. -/
def elemMul (xs ys : List ℝ) : Except SimError (List ℝ) :=
  if xs.length = ys.length then .ok (List.zipWith (· * ·) xs ys)
  else .error .broadcastError

/-- Elementwise sum of two numpy arrays of the same length; arrays of
different lengths raise a broadcast error. -/
def elemAdd (xs ys : List ℝ) : Except SimError (List ℝ) :=
  if xs.length = ys.length then .ok (List.zipWith (· + ·) xs ys)
  else .error .broadcastError

/-- The state of a `specsim.atmosphere.Atmosphere` instance: the attributes
assigned in `__init__`, `set_condition` and `set_airmass`.  The optional moon
model is irrelevant to the claims and is kept as a placeholder. -/
structure Atmosphere where
  wavelength : List ℝ
  surface_brightness_dict : List (String × List ℝ)
  extinction_coefficient : List ℝ
  extinct_emission : Bool
  condition_names : List String
  moon : Option Unit
  condition : String
  surface_brightness : List ℝ
  airmass : ℝ
  extinction : List ℝ

/-- Python `self.surface_brightness_dict[name]`: association-list lookup;
the (unreachable, given `set_condition`'s guard) missing-key case is a
`KeyError`, modelled as `none`. -/
def dictLookup (d : List (String × List ℝ)) (k : String) : Option (List ℝ) :=
  d.lookup k

/-- `Atmosphere.set_condition(name)`: raise
`ValueError("Invalid condition '{name}'. Pick one of {condition_names}.")`
when `name` is not among the stored condition names, otherwise store `name`
as the active condition and the dictionary entry as the active surface
brightness. -/
def Atmosphere.set_condition (atm : Atmosphere) (name : String) :
    Except SimError Atmosphere :=
  if name ∈ atm.condition_names then
    match dictLookup atm.surface_brightness_dict name with
    | some sb => .ok { atm with condition := name, surface_brightness := sb }
    | none => .error (.invalidCondition name atm.condition_names)
  else
    .error (.invalidCondition name atm.condition_names)

/-- The Python-formatted message of the invalid-condition `ValueError`:
`"Invalid condition '<name>'. Pick one of [<names>]."`, enumerating every
valid condition name. -/
def invalidConditionMessage (name : String) (valid : List String) : String :=
  "Invalid condition '" ++ name ++ "'. Pick one of [" ++
    String.intercalate ", " valid ++ "]."

/-- `Atmosphere.set_airmass(airmass)`: store the airmass and recompute
`self.extinction = 10 ** (-self.extinction_coefficient * airmass / 2.5)`
elementwise over the tabulated extinction coefficient.  No validation is
performed on `airmass`. -/
def Atmosphere.set_airmass (atm : Atmosphere) (airmass : ℝ) : Atmosphere :=
  { atm with
    airmass := airmass
    extinction :=
      atm.extinction_coefficient.map fun e => (10 : ℝ) ^ (-e * airmass / 2.5) }

/-- `Atmosphere.__init__`: store the constructor arguments, set
`condition_names` to the dictionary's keys, then run `set_condition` and
`set_airmass`; an error raised by `set_condition` propagates out of the
constructor.  The fields overwritten by those two calls start from
placeholder values (in Python they are simply not yet assigned). -/
def Atmosphere.init (wavelength : List ℝ)
    (surface_brightness_dict : List (String × List ℝ))
    (extinction_coefficient : List ℝ) (extinct_emission : Bool)
    (condition : String) (airmass : ℝ) (moon : Option Unit) :
    Except SimError Atmosphere := do
  let atm0 : Atmosphere :=
    { wavelength := wavelength
      surface_brightness_dict := surface_brightness_dict
      extinction_coefficient := extinction_coefficient
      extinct_emission := extinct_emission
      condition_names := surface_brightness_dict.map Prod.fst
      moon := moon
      condition := ""
      surface_brightness := []
      airmass := 0
      extinction := [] }
  let atm1 ← atm0.set_condition condition
  .ok (atm1.set_airmass airmass)

/-- `Atmosphere.propagate(source_flux, fiber_area)` as written in the
source: compute `sky = self.surface_brightness * fiber_area`, then evaluate
the bare name `extinct_emission` against the ambient (module-global) scope
`globalScope` — `none` raises `NameError` — and, when it is bound and true,
extinguish the sky term; finally return
`sky + source_flux * self.extinction`. -/
def Atmosphere.propagate (globalScope : Option Bool) (atm : Atmosphere)
    (source_flux : List ℝ) (fiber_area : ℝ) : Except SimError (List ℝ) := do
  let sky := atm.surface_brightness.map fun b => b * fiber_area
  match globalScope with
  | none => .error (.nameError "extinct_emission")
  | some flag => do
    let sky ← if flag then elemMul sky atm.extinction else .ok sky
    let src ← elemMul source_flux atm.extinction
    elemAdd sky src

/-- The module-global binding of the name `extinct_emission` in
`specsim/atmosphere.py`: the module defines no such global, so the ambient
lookup performed by `propagate` finds nothing. -/
def moduleGlobals : Option Bool := none

/-- Modelled from the spec: `propagate` as §4.1 specifies it, reading the
extinct-emission flag from the instance's own stored configuration
(`self.extinct_emission`) instead of the ambient scope that the source
actually reads (the source defect noted in §9 of the spec). -/
def Atmosphere.propagate_asSpecified (atm : Atmosphere)
    (source_flux : List ℝ) (fiber_area : ℝ) : Except SimError (List ℝ) := do
  let sky := atm.surface_brightness.map fun b => b * fiber_area
  let sky ← if atm.extinct_emission then elemMul sky atm.extinction else .ok sky
  let src ← elemMul source_flux atm.extinction
  elemAdd sky src

/-! ## The Krisciunas–Schaefer scattered-moonlight model -/

/-- Eqn. 9 step 1 of `krisciunas_schaefer`: `abs_alpha = 180. * moon_phase`,
the moon's phase angle in degrees. -/
def ks_abs_alpha (moon_phase : ℝ) : ℝ := 180 * moon_phase

/-- Eqn. 9 of `krisciunas_schaefer`:
`m = -12.73 + 0.026 * abs_alpha + 4e-9 * abs_alpha ** 4`, the V-band
magnitude of the moon. -/
def ks_m (moon_phase : ℝ) : ℝ :=
  -12.73 + 0.026 * ks_abs_alpha moon_phase + 4e-9 * ks_abs_alpha moon_phase ^ 4

/-- Eqn. 8 of `krisciunas_schaefer`: `Istar = 10 ** (-0.4 * (m + 16.57))`,
the moon's illuminance outside the atmosphere in foot-candles. -/
def ks_Istar (moon_phase : ℝ) : ℝ :=
  (10 : ℝ) ^ (-0.4 * (ks_m moon_phase + 16.57))

/-- Eqn. 21 of `krisciunas_schaefer`:
`f_scatter = 10 ** 5.36 * (1.06 + cos(separation_angle) ** 2) + 10 ** (6.15 - rho / 40.)`,
where `rho` is the separation angle converted to degrees and the cosine acts
on the angle's value in radians (angle arguments are modelled in radians). -/
def ks_f_scatter (separation_angle : ℝ) : ℝ :=
  (10 : ℝ) ^ (5.36 : ℝ) * (1.06 + Real.cos separation_angle ^ 2) +
    (10 : ℝ) ^ (6.15 - separation_angle * (180 / Real.pi) / 40)

/-- Eqn. 3 of `krisciunas_schaefer`: the scattering airmass
`sqrt(1 - 0.96 * sin(zenith) ** 2)` along a line of sight. -/
def ks_X (zenith : ℝ) : ℝ :=
  Real.sqrt (1 - 0.96 * Real.sin zenith ^ 2)

/-- The V-band moonlight surface brightness in nanoLamberts:
`B_moon = f_scatter * Istar * 10 ** (-0.4 * vband_extinction * X_moon) * (1 - 10 ** (-0.4 * (vband_extinction * X_obs)))`. -/
def ks_B_moon (obs_zenith moon_zenith separation_angle moon_phase
    vband_extinction : ℝ) : ℝ :=
  ks_f_scatter separation_angle * ks_Istar moon_phase *
    (10 : ℝ) ^ (-0.4 * vband_extinction * ks_X moon_zenith) *
    (1 - (10 : ℝ) ^ (-0.4 * (vband_extinction * ks_X obs_zenith)))

/-- The value `krisciunas_schaefer` computes for one moon-phase value after
validation: `(20.7233 - log(B_moon / 34.08)) / 0.92104` in magnitudes per
square arcsecond (Garstang eqn. 19 conversion from nanoLamberts). -/
def ksV (obs_zenith moon_zenith separation_angle moon_phase
    vband_extinction : ℝ) : ℝ :=
  (20.7233 -
      Real.log
        (ks_B_moon obs_zenith moon_zenith separation_angle moon_phase
            vband_extinction / 34.08)) / 0.92104

/-- `krisciunas_schaefer(obs_zenith, moon_zenith, separation_angle, moon_phase, vband_extinction)`:
first validate the moon-phase array — if any element is below 0 or above 1,
raise `ValueError('Invalid moon phase {moon_phase}. Expected 0-1.')` with no
partial result — then evaluate the model elementwise over the phases. -/
def krisciunas_schaefer (obs_zenith moon_zenith separation_angle : ℝ)
    (moon_phase : List ℚ) (vband_extinction : ℝ) : Except SimError (List ℝ) :=
  if moon_phase.any (fun p => decide (p < 0) || decide (1 < p)) then
    .error (.invalidMoonPhase moon_phase)
  else
    .ok (moon_phase.map fun p =>
      ksV obs_zenith moon_zenith separation_angle (p : ℝ) vband_extinction)

/-- Stated from the spec's words (§4.2 steps 1–8), for claim C8: the
composition of the stated steps written out as one closed-form expression,
to be compared against the source-derived `ksV`. -/
def ksV_specFormula (obsZenith moonZenith separation phase k : ℝ) : ℝ :=
  (20.7233 -
      Real.log
        ((((10 : ℝ) ^ (5.36 : ℝ) * (1.06 + Real.cos separation ^ 2) +
              (10 : ℝ) ^ (6.15 - separation * (180 / Real.pi) / 40)) *
            (10 : ℝ) ^
              (-0.4 *
                ((-12.73 + 0.026 * (180 * phase) + 4e-9 * (180 * phase) ^ 4) +
                  16.57)) *
            (10 : ℝ) ^
              (-0.4 * k * Real.sqrt (1 - 0.96 * Real.sin moonZenith ^ 2)) *
            (1 -
              (10 : ℝ) ^
                (-0.4 *
                  (k * Real.sqrt (1 - 0.96 * Real.sin obsZenith ^ 2))))) /
          34.08)) / 0.92104

/-! ## Sample states -/

/-- A concrete `Atmosphere` state used to exercise the claims: one
condition `"dark"`, a three-point wavelength grid, airmass 1, already past
construction (the stored `extinction` is what `set_airmass 1` computed). -/
def demoAtm : Atmosphere :=
  { wavelength := [4000, 5000, 6000]
    surface_brightness_dict := [("dark", [1, 1, 1])]
    extinction_coefficient := [0.5, 0.4, 0.3]
    extinct_emission := true
    condition_names := ["dark"]
    moon := none
    condition := "dark"
    surface_brightness := [1, 1, 1]
    airmass := 1
    extinction :=
      [(10 : ℝ) ^ (-(0.5 : ℝ) * 1 / 2.5), (10 : ℝ) ^ (-(0.4 : ℝ) * 1 / 2.5),
        (10 : ℝ) ^ (-(0.3 : ℝ) * 1 / 2.5)] }

/-- A concrete `Atmosphere` state whose tabulated extinction coefficient
vanishes at its only wavelength: every coefficient is nonnegative, yet the
transmission the model computes equals 1 at every airmass. -/
def zeroExtAtm : Atmosphere :=
  { wavelength := [5000]
    surface_brightness_dict := [("dark", [1])]
    extinction_coefficient := [0]
    extinct_emission := true
    condition_names := ["dark"]
    moon := none
    condition := "dark"
    surface_brightness := [1]
    airmass := 1
    extinction := [1] }

/-- A concrete `Atmosphere` state with extinction coefficients `[0, 1]`,
used to instantiate the transmission-curve invariant. -/
def twoExtAtm : Atmosphere :=
  { wavelength := [4000, 5000]
    surface_brightness_dict := [("dark", [1, 1])]
    extinction_coefficient := [0, 1]
    extinct_emission := false
    condition_names := ["dark"]
    moon := none
    condition := "dark"
    surface_brightness := [1, 1]
    airmass := 1
    extinction := [1, 1] }

/-! ## Helper lemmas -/

/-- A membership in the key list of an association list guarantees a
successful lookup. -/
lemma dictLookup_isSome_of_mem (d : List (String × List ℝ)) (k : String)
    (h : k ∈ d.map Prod.fst) : ∃ v, dictLookup d k = some v := by
  induction d with
  | nil => simp at h
  | cons p d ih =>
    obtain ⟨k1, v1⟩ := p
    rw [List.map_cons, List.mem_cons] at h
    by_cases hk : k = k1
    · exact ⟨v1, by simp [dictLookup, List.lookup, beq_iff_eq, hk]⟩
    · rcases h with h | h
      · exact absurd h hk
      · rcases ih h with ⟨v, hv⟩
        have hkk : (k == k1) = false := beq_eq_false_iff_ne.mpr hk
        exact ⟨v, by simpa [dictLookup, List.lookup, hkk] using hv⟩

/-- `10 ^ y = 1` exactly when the exponent vanishes. -/
lemma tenRpow_eq_one_iff (y : ℝ) : (10 : ℝ) ^ y = 1 ↔ y = 0 := by
  constructor
  · intro h
    by_contra hy
    rcases lt_or_gt_of_ne hy with h1 | h1
    · have h2 : (10 : ℝ) ^ y < (10 : ℝ) ^ (0 : ℝ) :=
        (Real.rpow_lt_rpow_left_iff (by norm_num : (1 : ℝ) < 10)).mpr h1
      rw [h, Real.rpow_zero] at h2
      exact lt_irrefl 1 h2
    · have h2 : (10 : ℝ) ^ (0 : ℝ) < (10 : ℝ) ^ y :=
        (Real.rpow_lt_rpow_left_iff (by norm_num : (1 : ℝ) < 10)).mpr h1
      rw [h, Real.rpow_zero] at h2
      exact lt_irrefl 1 h2
  · intro h
    rw [h, Real.rpow_zero]

/-- Rational two-sided bounds on `10 ^ e` from `n`-th-power comparisons,
for an exponent `e` with `e * n = -m` integral. -/
lemma tenRpow_bounds (e : ℝ) (n m : ℕ) (q1 q2 : ℝ)
    (hq2 : 0 ≤ q2) (hmul : e * n = -(m : ℝ))
    (h1 : q1 ^ n * 10 ^ m < 1) (h2 : 1 < q2 ^ n * 10 ^ m) :
    q1 < (10 : ℝ) ^ e ∧ (10 : ℝ) ^ e < q2 := by
  have h10 : (0 : ℝ) < 10 := by norm_num
  have ht : 0 < (10 : ℝ) ^ e := Real.rpow_pos_of_pos h10 e
  have hm : (0 : ℝ) < 10 ^ m := by positivity
  have hpow : ((10 : ℝ) ^ e) ^ n = 1 / 10 ^ m := by
    rw [← Real.rpow_natCast ((10 : ℝ) ^ e) n, ← Real.rpow_mul h10.le, hmul,
      Real.rpow_neg h10.le, Real.rpow_natCast, inv_eq_one_div]
  constructor
  · apply lt_of_pow_lt_pow_left₀ n ht.le
    rw [hpow, lt_div_iff₀ hm]
    linarith
  · apply lt_of_pow_lt_pow_left₀ n hq2
    rw [hpow, div_lt_iff₀ hm]
    linarith

/-! ## Claims -/

/-- C3: the spec claims a `propagate` call raises a
`ConfigurationMismatchError` exactly when the source flux is misaligned with
the wavelength grid and succeeds otherwise.  In the source, line 78 of
`atmosphere.py` evaluates the bare name `extinct_emission`, which is bound
nowhere in the module's global scope, so every `propagate` call — aligned or
not — raises `NameError` before any alignment behavior can occur. -/
theorem C3_propagate_always_nameError (atm : Atmosphere)
    (source_flux : List ℝ) (fiber_area : ℝ) :
    atm.propagate moduleGlobals source_flux fiber_area =
      .error (.nameError "extinct_emission") := rfl

/-- C2: the spec claims the extinct-emission branch of `propagate` is
decided by the flag stored at construction and never by an ambient value.
In the source the opposite holds: the stored field `extinct_emission` is
never consulted (changing it does not change any `propagate` result under
any ambient scope), and the branch is decided by the ambient binding alone —
two instances identical except for their stored flag always agree, and the
module-global lookup (`moduleGlobals = none`) makes every call raise
`NameError`. -/
theorem C2_stored_flag_never_consulted :
    (∀ (globalScope : Option Bool) (atm : Atmosphere) (b : Bool)
        (source_flux : List ℝ) (fiber_area : ℝ),
      Atmosphere.propagate globalScope { atm with extinct_emission := b }
          source_flux fiber_area =
        Atmosphere.propagate globalScope atm source_flux fiber_area) ∧
    (Atmosphere.propagate (some true) demoAtm [0, 0, 0] 1 ≠
      Atmosphere.propagate (some false) demoAtm [0, 0, 0] 1) := by
  constructor
  · intro globalScope atm b source_flux fiber_area
    rfl
  · intro h
    have hL : Atmosphere.propagate (some true) demoAtm [0, 0, 0] 1 =
        .ok [1 * 1 * ((10 : ℝ) ^ (-(0.5 : ℝ) * 1 / 2.5)) +
              0 * ((10 : ℝ) ^ (-(0.5 : ℝ) * 1 / 2.5)),
            1 * 1 * ((10 : ℝ) ^ (-(0.4 : ℝ) * 1 / 2.5)) +
              0 * ((10 : ℝ) ^ (-(0.4 : ℝ) * 1 / 2.5)),
            1 * 1 * ((10 : ℝ) ^ (-(0.3 : ℝ) * 1 / 2.5)) +
              0 * ((10 : ℝ) ^ (-(0.3 : ℝ) * 1 / 2.5))] := rfl
    have hR : Atmosphere.propagate (some false) demoAtm [0, 0, 0] 1 =
        .ok [1 * 1 + 0 * ((10 : ℝ) ^ (-(0.5 : ℝ) * 1 / 2.5)),
            1 * 1 + 0 * ((10 : ℝ) ^ (-(0.4 : ℝ) * 1 / 2.5)),
            1 * 1 + 0 * ((10 : ℝ) ^ (-(0.3 : ℝ) * 1 / 2.5))] := rfl
    rw [hL, hR] at h
    simp only [Except.ok.injEq, List.cons.injEq] at h
    obtain ⟨h1, -⟩ := h
    have h2 : (10 : ℝ) ^ (-(0.5 : ℝ) * 1 / 2.5) = 1 := by linarith
    rw [tenRpow_eq_one_iff] at h2
    norm_num at h2

/-- C2 witness: the stored-flag irrelevance instantiated at `demoAtm` under
a concrete ambient scope. -/
theorem C2_stored_flag_never_consulted_witness :
    Atmosphere.propagate (some true)
        { demoAtm with extinct_emission := false } [0, 0, 0] 1 =
      Atmosphere.propagate (some true) demoAtm [0, 0, 0] 1 :=
  C2_stored_flag_never_consulted.1 (some true) demoAtm false [0, 0, 0] 1

/-- C5: `set_airmass(X)` accepts every real `X` without validation, stores
it as the airmass, and recomputes the transmission curve pointwise as
`transmission(λ) = 10 ^ (-e(λ) * X / 2.5)` over the full wavelength grid
(the recomputed curve has exactly one entry per tabulated extinction
coefficient). -/
theorem C5_set_airmass_formula (atm : Atmosphere) (X : ℝ) :
    (atm.set_airmass X).airmass = X ∧
    (atm.set_airmass X).extinction.length =
      atm.extinction_coefficient.length ∧
    ∀ i : ℕ,
      (atm.set_airmass X).extinction[i]? =
        (atm.extinction_coefficient[i]?).map fun e =>
          (10 : ℝ) ^ (-e * X / 2.5) := by
  refine ⟨rfl, ?_, ?_⟩
  · simp [Atmosphere.set_airmass]
  · intro i
    simp [Atmosphere.set_airmass, List.getElem?_map]

/-- C10: constructing an `Atmosphere` with a condition name that is not a
key of the surface-brightness dictionary fails with exactly the
invalid-condition `ValueError` that `set_condition` raises (the constructor
performs the initial selection through `set_condition`, so no model is
returned), and the same call on the post-construction state produces the
identical error. -/
theorem C10_init_invalid_condition (wavelength : List ℝ)
    (surface_brightness_dict : List (String × List ℝ))
    (extinction_coefficient : List ℝ) (extinct_emission : Bool)
    (condition : String) (airmass : ℝ) (moon : Option Unit)
    (h : condition ∉ surface_brightness_dict.map Prod.fst) :
    Atmosphere.init wavelength surface_brightness_dict extinction_coefficient
        extinct_emission condition airmass moon =
      .error
        (.invalidCondition condition (surface_brightness_dict.map Prod.fst)) ∧
    ∀ atm : Atmosphere,
      atm.condition_names = surface_brightness_dict.map Prod.fst →
      atm.set_condition condition =
        .error
          (.invalidCondition condition
            (surface_brightness_dict.map Prod.fst)) := by
  constructor
  · simp only [Atmosphere.init, Atmosphere.set_condition]
    simp [h]
    rfl
  · intro atm hnames
    simp [Atmosphere.set_condition, hnames, h]

/-- C10 witness: a concrete invalid construction. -/
theorem C10_init_invalid_condition_witness :
    Atmosphere.init [4000] [("dark", [1])] [0.5] true "foo" 1 none =
      .error (.invalidCondition "foo" ["dark"]) :=
  (C10_init_invalid_condition [4000] [("dark", [1])] [0.5] true "foo" 1 none
    (by decide)).1

/-- C4: `set_condition(name)` raises the invalid-condition error — whose
payload enumerates the full stored set of condition names, which equals the
full key set of the surface-brightness dictionary — exactly when `name` is
not a configured key; on a valid name it stores `name` and makes the active
surface brightness exactly the dictionary's spectrum for `name`, changing
nothing else. -/
theorem C4_set_condition_spec (atm : Atmosphere) (name : String)
    (hinv : atm.condition_names = atm.surface_brightness_dict.map Prod.fst) :
    (name ∉ atm.surface_brightness_dict.map Prod.fst →
      atm.set_condition name =
        .error
          (.invalidCondition name
            (atm.surface_brightness_dict.map Prod.fst))) ∧
    (name ∈ atm.surface_brightness_dict.map Prod.fst →
      ∃ sb, dictLookup atm.surface_brightness_dict name = some sb ∧
        atm.set_condition name =
          .ok { atm with condition := name, surface_brightness := sb }) ∧
    (∀ err, atm.set_condition name = .error err →
      name ∉ atm.surface_brightness_dict.map Prod.fst ∧
      err =
        .invalidCondition name (atm.surface_brightness_dict.map Prod.fst)) := by
  refine ⟨?_, ?_, ?_⟩
  · intro h
    simp [Atmosphere.set_condition, hinv, h]
  · intro h
    rcases dictLookup_isSome_of_mem atm.surface_brightness_dict name h with
      ⟨sb, hsb⟩
    exact ⟨sb, hsb, by simp [Atmosphere.set_condition, hinv, h, hsb]⟩
  · intro err herr
    by_cases h : name ∈ atm.surface_brightness_dict.map Prod.fst
    · rcases dictLookup_isSome_of_mem atm.surface_brightness_dict name h with
        ⟨sb, hsb⟩
      simp [Atmosphere.set_condition, hinv, h, hsb] at herr
    · refine ⟨h, ?_⟩
      simp [Atmosphere.set_condition, hinv, h] at herr
      exact herr.symm

/-- C4 witness: the theorem applied to the concrete `demoAtm` and an
invalid name. -/
theorem C4_set_condition_spec_witness :
    demoAtm.set_condition "bright" =
      .error (.invalidCondition "bright" ["dark"]) :=
  (C4_set_condition_spec demoAtm "bright" rfl).1 (by decide)

/-- C7: `krisciunas_schaefer` raises the phase-validation `ValueError` —
whose payload carries the whole phase array, offending values included, with
no partial result — exactly when some element of the phase array is strictly
below 0 or strictly above 1; in particular phases 0.0 and 1.0 are accepted
and phases -0.01 and 1.01 are rejected. -/
theorem C7_phase_validation (obs_zenith moon_zenith separation_angle
    vband_extinction : ℝ) (moon_phase : List ℚ) :
    (krisciunas_schaefer obs_zenith moon_zenith separation_angle moon_phase
          vband_extinction =
        .error (.invalidMoonPhase moon_phase) ↔
      ∃ p ∈ moon_phase, p < 0 ∨ 1 < p) ∧
    ((∀ p ∈ moon_phase, 0 ≤ p ∧ p ≤ 1) →
      krisciunas_schaefer obs_zenith moon_zenith separation_angle moon_phase
          vband_extinction =
        .ok (moon_phase.map fun p =>
          ksV obs_zenith moon_zenith separation_angle (p : ℝ)
            vband_extinction)) ∧
    krisciunas_schaefer obs_zenith moon_zenith separation_angle [-1/100]
        vband_extinction =
      .error (.invalidMoonPhase [-1/100]) ∧
    krisciunas_schaefer obs_zenith moon_zenith separation_angle [101/100]
        vband_extinction =
      .error (.invalidMoonPhase [101/100]) ∧
    krisciunas_schaefer obs_zenith moon_zenith separation_angle [0, 1]
        vband_extinction =
      .ok [ksV obs_zenith moon_zenith separation_angle ((0 : ℚ) : ℝ)
          vband_extinction,
        ksV obs_zenith moon_zenith separation_angle ((1 : ℚ) : ℝ)
          vband_extinction] := by
  refine ⟨?_, ?_, ?_, ?_, ?_⟩
  · unfold krisciunas_schaefer
    by_cases h : ∃ p ∈ moon_phase, p < 0 ∨ 1 < p
    · have hb : moon_phase.any (fun p => decide (p < 0) || decide (1 < p)) =
          true := by
        simp only [List.any_eq_true, Bool.or_eq_true, decide_eq_true_eq]
        exact h
      simp [hb, h]
    · have hb : moon_phase.any (fun p => decide (p < 0) || decide (1 < p)) =
          false := by
        push_neg at h
        simp only [List.any_eq_false]
        intro p hp
        simp only [Bool.or_eq_true, decide_eq_true_eq]
        push_neg
        exact h p hp
      simp [hb, h]
  · intro h
    have hb : moon_phase.any (fun p => decide (p < 0) || decide (1 < p)) =
        false := by
      simp only [List.any_eq_false]
      intro p hp
      simp only [Bool.or_eq_true, decide_eq_true_eq]
      push_neg
      exact h p hp
    simp [krisciunas_schaefer, hb]
  · unfold krisciunas_schaefer
    norm_num
  · unfold krisciunas_schaefer
    norm_num
  · unfold krisciunas_schaefer
    norm_num

/-- C7 witness: the theorem applied at a concrete geometry, giving the
acceptance of the exact boundary phases 0.0 and 1.0. -/
theorem C7_phase_validation_witness :
    krisciunas_schaefer 0 0 0 [0, 1] 1 =
      .ok [ksV 0 0 0 ((0 : ℚ) : ℝ) 1, ksV 0 0 0 ((1 : ℚ) : ℝ) 1] :=
  (C7_phase_validation 0 0 0 1 [0, 1]).2.2.2.2

/-- C8: on every valid phase array, `krisciunas_schaefer` returns exactly
the composition of the spec's stated steps 1–8 (phase angle, moon magnitude,
illuminance, scattering function with the separation's cosine in radians and
`rho` in degrees, the two scattering airmasses, `B_moon`, and the
nanoLambert-to-magnitude conversion), applied elementwise. -/
theorem C8_formula_composition (obs_zenith moon_zenith separation_angle
    vband_extinction : ℝ) (moon_phase : List ℚ)
    (h : ∀ p ∈ moon_phase, 0 ≤ p ∧ p ≤ 1) :
    krisciunas_schaefer obs_zenith moon_zenith separation_angle moon_phase
        vband_extinction =
      .ok (moon_phase.map fun p =>
        ksV_specFormula obs_zenith moon_zenith separation_angle (p : ℝ)
          vband_extinction) := by
  have hb : moon_phase.any (fun p => decide (p < 0) || decide (1 < p)) =
      false := by
    simp only [List.any_eq_false]
    intro p hp
    simp only [Bool.or_eq_true, decide_eq_true_eq]
    push_neg
    exact h p hp
  have hfun : ∀ x : ℝ,
      ksV obs_zenith moon_zenith separation_angle x vband_extinction =
        ksV_specFormula obs_zenith moon_zenith separation_angle x
          vband_extinction := fun x => rfl
  simp [krisciunas_schaefer, hb, hfun]

/-- C8 witness: the refinement evaluated on the concrete phase array
`[0, 1/2, 1]`. -/
theorem C8_formula_composition_witness :
    krisciunas_schaefer 0 0 0 [0, 1] 1 =
      .ok ([0, 1].map fun p : ℚ => ksV_specFormula 0 0 0 (p : ℝ) 1) :=
  C8_formula_composition 0 0 0 1 [0, 1] (by decide)

/-- C6 counterexample: the claim states that under `e(λ) ≥ 0` and airmass
`X ≥ 0` the stored transmission equals 1 exactly when `X = 0`; with the
vanishing extinction coefficient `e = [0]` and `X = 1`, all premises hold,
the transmission is `[1]`, and yet the airmass is not 0. -/
theorem C6_counterexample :
    (∀ e ∈ zeroExtAtm.extinction_coefficient, 0 ≤ e) ∧
    (0 : ℝ) ≤ 1 ∧
    (zeroExtAtm.set_airmass 1).airmass ≠ 0 ∧
    (zeroExtAtm.set_airmass 1).extinction = [1] := by
  refine ⟨by simp [zeroExtAtm], by norm_num, ?_, ?_⟩
  · simp [Atmosphere.set_airmass]
  · simp only [Atmosphere.set_airmass, zeroExtAtm, List.map_cons,
      List.map_nil, List.cons.injEq, and_true]
    rw [show (-(0 : ℝ) * 1 / 2.5) = 0 by norm_num, Real.rpow_zero]

/-- C6 (amended): whenever every extinction coefficient satisfies
`e(λ) ≥ 0` and the most recent `set_airmass` call used `X ≥ 0`, the stored
transmission satisfies `0 < transmission(λ) ≤ 1` at every wavelength, with
`transmission(λ) = 1` exactly when `e(λ) · X = 0`; a subsequent successful
`set_condition` preserves the transmission curve and the airmass. -/
theorem C6_transmission_invariant (atm : Atmosphere) (X : ℝ)
    (he : ∀ e ∈ atm.extinction_coefficient, 0 ≤ e) (hX : 0 ≤ X) :
    (∀ i (hi : i < atm.extinction_coefficient.length)
        (hi2 : i < (atm.set_airmass X).extinction.length),
      0 < (atm.set_airmass X).extinction.get ⟨i, hi2⟩ ∧
      (atm.set_airmass X).extinction.get ⟨i, hi2⟩ ≤ 1 ∧
      ((atm.set_airmass X).extinction.get ⟨i, hi2⟩ = 1 ↔
        atm.extinction_coefficient.get ⟨i, hi⟩ * X = 0)) ∧
    ∀ name atm2, (atm.set_airmass X).set_condition name = .ok atm2 →
      atm2.extinction = (atm.set_airmass X).extinction ∧
      atm2.airmass = (atm.set_airmass X).airmass := by
  constructor
  · intro i hi hi2
    have hget : (atm.set_airmass X).extinction.get ⟨i, hi2⟩ =
        (10 : ℝ) ^ (-(atm.extinction_coefficient.get ⟨i, hi⟩) * X / 2.5) := by
      simp [Atmosphere.set_airmass, List.get_eq_getElem, List.getElem_map]
    have hee : 0 ≤ atm.extinction_coefficient.get ⟨i, hi⟩ :=
      he _ (List.get_mem _ _ _)
    have hprod : 0 ≤ atm.extinction_coefficient.get ⟨i, hi⟩ * X :=
      mul_nonneg hee hX
    have hiff : (-atm.extinction_coefficient.get ⟨i, hi⟩ * X / 2.5 = 0) ↔
        atm.extinction_coefficient.get ⟨i, hi⟩ * X = 0 := by
      rw [div_eq_zero_iff, neg_mul, neg_eq_zero]
      norm_num
    refine ⟨?_, ?_, ?_⟩
    · rw [hget]
      exact Real.rpow_pos_of_pos (by norm_num) _
    · rw [hget]
      apply Real.rpow_le_one_of_one_le_of_nonpos (by norm_num)
      rw [neg_mul]
      exact div_nonpos_iff.mpr (Or.inr ⟨neg_nonpos.mpr hprod, by norm_num⟩)
    · rw [hget, tenRpow_eq_one_iff]
      exact hiff
  · intro name atm2 h
    unfold Atmosphere.set_condition at h
    by_cases hn : name ∈ (atm.set_airmass X).condition_names
    · simp only [hn, if_true] at h
      cases hl : dictLookup (atm.set_airmass X).surface_brightness_dict name
        with
      | none => rw [hl] at h; exact absurd h (by simp)
      | some sb =>
        rw [hl] at h
        simp only [Except.ok.injEq] at h
        rw [← h]
        exact ⟨rfl, rfl⟩
    · simp [hn] at h

/-- C6 witness: the amended invariant applied to the concrete state
`twoExtAtm` (coefficients `[0, 1]`) at airmass 0; the vanishing-product
direction of the iff yields transmission 1 at the first wavelength. -/
theorem C6_transmission_invariant_witness :
    (twoExtAtm.set_airmass 0).extinction.get
        ⟨0, by simp [twoExtAtm, Atmosphere.set_airmass]⟩ = 1 := by
  have h := (C6_transmission_invariant twoExtAtm 0 (by simp [twoExtAtm])
      le_rfl).1 0 (by simp [twoExtAtm])
      (by simp [twoExtAtm, Atmosphere.set_airmass])
  exact h.2.2.mpr (by norm_num)

/-- C1: on the concrete configuration of the claim (grid of three
wavelengths, sky brightness `[1, 1, 1]`, extinction coefficient
`[0.5, 0.4, 0.3]`, `extinct_emission = True`, airmass 1, fiber area 2 and
source flux `[10, 10, 10]`), the constructed model's `propagate` as written
raises `NameError` (bare ambient name `extinct_emission`), while the
spec-intended variant that reads the stored flag returns a triple within
0.01 of the claimed `[7.572, 8.304, 9.108]`. -/
theorem C1_propagate_concrete :
    ∃ atm : Atmosphere,
      Atmosphere.init [4000, 5000, 6000] [("dark", [1, 1, 1])] [0.5, 0.4, 0.3]
          true "dark" 1 none = .ok atm ∧
      atm.propagate moduleGlobals [10, 10, 10] 2 =
        .error (.nameError "extinct_emission") ∧
      ∃ r1 r2 r3 : ℝ,
        atm.propagate_asSpecified [10, 10, 10] 2 = .ok [r1, r2, r3] ∧
        |r1 - 7.572| < 0.01 ∧ |r2 - 8.304| < 0.01 ∧ |r3 - 9.108| < 0.01 := by
  refine ⟨demoAtm, rfl, rfl,
    1 * 2 * ((10 : ℝ) ^ (-(0.5 : ℝ) * 1 / 2.5)) +
      10 * ((10 : ℝ) ^ (-(0.5 : ℝ) * 1 / 2.5)),
    1 * 2 * ((10 : ℝ) ^ (-(0.4 : ℝ) * 1 / 2.5)) +
      10 * ((10 : ℝ) ^ (-(0.4 : ℝ) * 1 / 2.5)),
    1 * 2 * ((10 : ℝ) ^ (-(0.3 : ℝ) * 1 / 2.5)) +
      10 * ((10 : ℝ) ^ (-(0.3 : ℝ) * 1 / 2.5)),
    rfl, ?_, ?_, ?_⟩
  · have hb := tenRpow_bounds (-(0.5 : ℝ) * 1 / 2.5) 5 1 0.6309 0.6310
      (by norm_num) (by push_cast; norm_num) (by norm_num) (by norm_num)
    rw [abs_lt]
    constructor <;> nlinarith [hb.1, hb.2]
  · have hb := tenRpow_bounds (-(0.4 : ℝ) * 1 / 2.5) 25 4 0.6918 0.6919
      (by norm_num) (by push_cast; norm_num) (by norm_num) (by norm_num)
    rw [abs_lt]
    constructor <;> nlinarith [hb.1, hb.2]
  · have hb := tenRpow_bounds (-(0.3 : ℝ) * 1 / 2.5) 25 3 0.7585 0.7586
      (by norm_num) (by push_cast; norm_num) (by norm_num) (by norm_num)
    rw [abs_lt]
    constructor <;> nlinarith [hb.1, hb.2]

/-- C9: for fixed observation zenith, moon zenith, separation angle and
positive V-band extinction coefficient, the `krisciunas_schaefer` magnitude
at phase 0 (full moon) is strictly smaller — brighter — than at any phase
`0 < p ≤ 1`; `B_moon > 0` holds automatically for such inputs, so the model
is defined throughout. -/
theorem C9_full_moon_brightest (obs_zenith moon_zenith separation_angle
    vband_extinction p : ℝ) (hk : 0 < vband_extinction) (hp0 : 0 < p)
    (_hp1 : p ≤ 1) :
    ksV obs_zenith moon_zenith separation_angle 0 vband_extinction <
      ksV obs_zenith moon_zenith separation_angle p vband_extinction := by
  have hm : ks_m 0 < ks_m p := by
    simp only [ks_m, ks_abs_alpha]
    have h4 : (0 : ℝ) ≤ (180 * p) ^ 4 := by positivity
    nlinarith
  have hIlt : ks_Istar p < ks_Istar 0 := by
    simp only [ks_Istar]
    exact (Real.rpow_lt_rpow_left_iff (by norm_num : (1 : ℝ) < 10)).mpr
      (by linarith)
  have hIpos : 0 < ks_Istar p := Real.rpow_pos_of_pos (by norm_num) _
  have hfpos : 0 < ks_f_scatter separation_angle := by
    unfold ks_f_scatter
    positivity
  have hXpos : 0 < ks_X obs_zenith := by
    unfold ks_X
    apply Real.sqrt_pos.mpr
    nlinarith [Real.sin_sq_le_one obs_zenith]
  have hApos :
      0 < (10 : ℝ) ^ (-0.4 * vband_extinction * ks_X moon_zenith) :=
    Real.rpow_pos_of_pos (by norm_num) _
  have hDpos :
      0 < 1 - (10 : ℝ) ^ (-0.4 * (vband_extinction * ks_X obs_zenith)) := by
    have hexp : -0.4 * (vband_extinction * ks_X obs_zenith) < 0 := by
      nlinarith [mul_pos hk hXpos]
    have := Real.rpow_lt_one_of_one_lt_of_neg
      (by norm_num : (1 : ℝ) < 10) hexp
    linarith
  have hB : ks_B_moon obs_zenith moon_zenith separation_angle p
      vband_extinction <
      ks_B_moon obs_zenith moon_zenith separation_angle 0
        vband_extinction := by
    unfold ks_B_moon
    exact mul_lt_mul_of_pos_right
      (mul_lt_mul_of_pos_right
        (mul_lt_mul_of_pos_left hIlt hfpos) hApos) hDpos
  have hBp : 0 < ks_B_moon obs_zenith moon_zenith separation_angle p
      vband_extinction := by
    unfold ks_B_moon
    exact mul_pos (mul_pos (mul_pos hfpos hIpos) hApos) hDpos
  have hdiv : ks_B_moon obs_zenith moon_zenith separation_angle p
        vband_extinction / 34.08 <
      ks_B_moon obs_zenith moon_zenith separation_angle 0
        vband_extinction / 34.08 :=
    (div_lt_div_iff_of_pos_right (by norm_num)).mpr hB
  have hlog : Real.log (ks_B_moon obs_zenith moon_zenith separation_angle p
        vband_extinction / 34.08) <
      Real.log (ks_B_moon obs_zenith moon_zenith separation_angle 0
        vband_extinction / 34.08) :=
    Real.log_lt_log (by positivity) hdiv
  unfold ksV
  exact (div_lt_div_iff_of_pos_right (by norm_num)).mpr (by linarith)

/-- C9 witness: the strict comparison instantiated at zenith angles 0,
separation 0, extinction coefficient 1 and phase 1. -/
theorem C9_full_moon_brightest_witness :
    ksV 0 0 0 0 1 < ksV 0 0 0 1 1 :=
  C9_full_moon_brightest 0 0 0 1 1 one_pos one_pos le_rfl
